import Mathlib

/-!
Verification of the face-analysis repository (`losckmachine`).

The development shallowly embeds the two browser-side revisions of the
analysis code (`src/unnamed/part_000`, the full pixel-based implementation,
and `src/script.js`, the snapshot-flow revision) together with the thin
Express endpoint (`src/unnamed/part_001`).  JavaScript numbers are modelled
as exact rationals; the square root used by `euclideanDist` and by the
texture standard deviation forces those particular definitions into `ℝ`.
Randomness (`Math.random()`) is made explicit: every draw becomes an input
of the embedded function.
-/

namespace LosckMachine

/-- One RGBA sample of an `ImageData` buffer (one 4-byte group `data[i..i+3]`). -/
structure Pixel where
  r : ℚ
  g : ℚ
  b : ℚ
  a : ℚ
  deriving DecidableEq

/-- A sampled pixel block: the flattened RGBA groups of one `ImageData`. -/
abbrev Block := List Pixel

/-- Grayscale brightness of one pixel, `(data[i]+data[i+1]+data[i+2])/3`
as computed in all three metric loops of `part_000`. -/
def brightness (p : Pixel) : ℚ :=
  (p.r + p.g + p.b) / 3

/-- Sum of grayscale brightness over a block (`sum` in `calculateTextureMetric`). -/
def sumBrightness (d : Block) : ℚ :=
  (d.map brightness).sum

/-- Sum of squared brightness over a block (`sqSum` in `calculateTextureMetric`). -/
def sumSqBrightness (d : Block) : ℚ :=
  (d.map (fun p => brightness p * brightness p)).sum

/-- Mean brightness of a block: `sum / count` (also `getMean` in
`calculateBeardMetric` of `part_000`). -/
def blockMean (d : Block) : ℚ :=
  sumBrightness d / (d.length : ℚ)

/-- Population variance of block brightness, `(sqSum/count) - mean*mean`
from `calculateTextureMetric` of `part_000`. -/
def blockVariance (d : Block) : ℚ :=
  sumSqBrightness d / (d.length : ℚ) - blockMean d * blockMean d

/-- `calculateTextureMetric` of `part_000` (lines 234-254): returns the
standard deviation of grayscale brightness, `0` for a null block. -/
noncomputable def calculateTextureMetric : Option Block → ℝ
  | none => 0
  | some d => Real.sqrt ((blockVariance d : ℚ) : ℝ)

/-- Fraction of pixels whose brightness strictly exceeds the shine
threshold 190, i.e. `shinyPixels / totalPixels` in `calculateOilinessMetric`. -/
def brightFraction (d : Block) : ℚ :=
  ((d.filter (fun p => decide (190 < brightness p))).length : ℚ) / (d.length : ℚ)

/-- `calculateOilinessMetric` of `part_000` (lines 256-272):
`(shinyPixels / totalPixels) * 100 * 3`, `0` for a null block. -/
def calculateOilinessMetric : Option Block → ℚ
  | none => 0
  | some d => brightFraction d * 100 * 3

/-- `calculateBeardMetric` of `part_000` (lines 274-293): compares mean
brightness of chin and cheek blocks; `0` on a null block, `0` when the chin
is not darker, otherwise `min(100, diff * 2)`. -/
def calculateBeardMetric : Option Block → Option Block → ℚ
  | none, _ => 0
  | some _, none => 0
  | some chin, some cheek =>
    let diff := blockMean cheek - blockMean chin
    if 0 < diff then min 100 (diff * 2) else 0

/-- Texture score as published by `analyzeFaceFeatures` of `part_000`
(line 195): `Math.min(100, Math.round(textureScore * 2))`. -/
noncomputable def textureScore000 (b : Option Block) : ℤ :=
  min 100 (round (calculateTextureMetric b * 2))

/-- Oiliness score as published by `analyzeFaceFeatures` of `part_000`
(line 199): `Math.min(100, Math.round(oilScore))`. -/
def oilinessScore000 (b : Option Block) : ℤ :=
  min 100 (round (calculateOilinessMetric b))

/-- A landmark set: 2D points indexed by the MediaPipe convention
(`landmarks[i]` gives `[x, y]`; the unused `z` coordinate is dropped). -/
def Landmarks : Type := ℕ → ℚ × ℚ

/-- `euclideanDist` of `part_000` (line 295), also `Math.hypot` in
`script.js` line 447-448: the planar euclidean distance. -/
noncomputable def euclideanDist (p q : ℚ × ℚ) : ℝ :=
  Real.sqrt (((p.1 : ℝ) - (q.1 : ℝ)) ^ 2 + ((p.2 : ℝ) - (q.2 : ℝ)) ^ 2)

/-- Symmetry score of `script.js` `analyzeFaceFeatures` (lines 443-449):
only the nose-to-cheek pair is used, `Math.round((min(dL,dR)/max(dL,dR))*100)`. -/
noncomputable def symmetryScoreJS (lm : Landmarks) : ℤ :=
  round (min (euclideanDist (lm 1) (lm 234)) (euclideanDist (lm 1) (lm 454))
       / max (euclideanDist (lm 1) (lm 234)) (euclideanDist (lm 1) (lm 454)) * 100)

/-- Symmetry score of `part_000` `analyzeFaceFeatures` (lines 168-186):
nose-to-cheek and nose-to-eye ratios averaged, `Math.round(avg * 100)`. -/
noncomputable def symmetryScore000 (lm : Landmarks) : ℤ :=
  round (((min (euclideanDist (lm 1) (lm 234)) (euclideanDist (lm 1) (lm 454))
         / max (euclideanDist (lm 1) (lm 234)) (euclideanDist (lm 1) (lm 454)))
        + (min (euclideanDist (lm 1) (lm 33)) (euclideanDist (lm 1) (lm 263))
         / max (euclideanDist (lm 1) (lm 33)) (euclideanDist (lm 1) (lm 263)))) / 2 * 100)

/-- Symmetry formula written from the specification's words (section 4.2):
ratio of the shorter to the longer of the two paired anatomical distances
(nose-to-left-feature vs nose-to-right-feature), averaged over the two
landmark pairs (cheeks, eyes), scaled to a 0-100 percentage.  Kept as a
separate definition for comparison with the source embeddings. -/
noncomputable def specSymmetryValue (lm : Landmarks) : ℝ :=
  ((min (euclideanDist (lm 1) (lm 234)) (euclideanDist (lm 1) (lm 454))
    / max (euclideanDist (lm 1) (lm 234)) (euclideanDist (lm 1) (lm 454)))
   + (min (euclideanDist (lm 1) (lm 33)) (euclideanDist (lm 1) (lm 263))
    / max (euclideanDist (lm 1) (lm 33)) (euclideanDist (lm 1) (lm 263)))) / 2 * 100

/-- The claim C2 example landmark set: nose at `(100,100)`, left feature at
`(80,100)`, right feature at `(120,100)`. -/
def lmExample : Landmarks := fun i =>
  if i = 1 then (100, 100)
  else if i = 234 then (80, 100)
  else if i = 454 then (120, 100)
  else (0, 0)

/-- A landmark set whose paired distances are 1000 and 996: unequal, yet
their ratio rounds to a full score. -/
def lmNearMirror : Landmarks := fun i =>
  if i = 1 then (0, 0)
  else if i = 234 then (-1000, 0)
  else if i = 454 then (996, 0)
  else (0, 0)

/-- A landmark set with a perfectly mirrored cheek pair (10 vs 10) but an
uneven eye pair (4 vs 8). -/
def lmTwoPair : Landmarks := fun i =>
  if i = 1 then (0, 0)
  else if i = 234 then (-10, 0)
  else if i = 454 then (10, 0)
  else if i = 33 then (-4, 0)
  else if i = 263 then (8, 0)
  else (0, 0)

/-- A landmark set with both pairs perfectly mirrored (20 vs 20, 10 vs 10). -/
def lmEqualPairs : Landmarks := fun i =>
  if i = 1 then (0, 0)
  else if i = 234 then (-20, 0)
  else if i = 454 then (20, 0)
  else if i = 33 then (-10, 0)
  else if i = 263 then (10, 0)
  else (0, 0)

/-- Minimum of a list of rationals, as the `forEach` comparison loop of
`getRegionPixels` computes it on a nonempty list (the JS accumulator starts
at `Infinity`, so after the first element it equals that element). -/
def listMin : List ℚ → ℚ
  | [] => 0
  | x :: t => t.foldl min x

/-- Maximum counterpart of `listMin` (JS accumulator starts at `-Infinity`). -/
def listMax : List ℚ → ℚ
  | [] => 0
  | x :: t => t.foldl max x

/-- The rectangle handed to `ctx.getImageData` by a successful region
sampling: origin and size of the extracted pixel block. -/
structure Region where
  x : ℚ
  y : ℚ
  w : ℚ
  h : ℚ
  deriving DecidableEq

/-- `getRegionPixels` of `part_000` (lines 211-232): bounding box over the
selected landmarks, clamped to the `W × H` frame buffer, `null` ("no
region") when the clamped box has non-positive width or height.  For an
empty index list the JS `Infinity` initialisers force `w = -Infinity ≤ 0`,
hence `null`; the `[]` case models that directly. -/
def getRegionPixels (W H : ℚ) (lm : Landmarks) (indices : List ℕ) : Option Region :=
  match indices.map lm with
  | [] => none
  | p :: ps =>
    let minX := max 0 (listMin ((p :: ps).map Prod.fst))
    let minY := max 0 (listMin ((p :: ps).map Prod.snd))
    let maxX := min W (listMax ((p :: ps).map Prod.fst))
    let maxY := min H (listMax ((p :: ps).map Prod.snd))
    if maxX - minX ≤ 0 ∨ maxY - minY ≤ 0 then none
    else some ⟨minX, minY, maxX - minX, maxY - minY⟩

/-- `getRegionPixels` of `script.js` (lines 485-496): simplified variant
with no clamping to the frame, accumulators starting at `10000` and `0`,
and the null check `w < 1 || h < 1`. -/
def getRegionPixelsJS (lm : Landmarks) (indices : List ℕ) : Option Region :=
  let xs := (indices.map lm).map Prod.fst
  let ys := (indices.map lm).map Prod.snd
  let minX := xs.foldl min 10000
  let maxX := xs.foldl max 0
  let minY := ys.foldl min 10000
  let maxY := ys.foldl max 0
  if maxX - minX < 1 ∨ maxY - minY < 1 then none
  else some ⟨minX, minY, maxX - minX, maxY - minY⟩

/-- Concrete landmark set for the region-sampler witness. -/
def lmRegionW : Landmarks := fun i =>
  if i = 0 then (10, 20) else (30, 40)

/-- Numeric value of a digit string, most significant first. -/
def digitsVal (l : List Char) : ℚ :=
  l.foldl (fun acc c => acc * 10 + ((c.toNat - 48 : ℕ) : ℚ)) 0

/-- Kernel of the `parseFloat` model on a sign-stripped character list:
leading digits, optionally a dot and more digits; `none` when no digit is
found (JS `NaN`). -/
def parseFloatCore (cs : List Char) : Option ℚ :=
  let intPart := cs.takeWhile Char.isDigit
  let rest := cs.dropWhile Char.isDigit
  let fracPart :=
    match rest with
    | c :: t => if c = '.' then t.takeWhile Char.isDigit else []
    | [] => []
  if intPart.isEmpty && fracPart.isEmpty then none
  else some (digitsVal intPart + digitsVal fracPart / 10 ^ fracPart.length)

/-- Model of the JavaScript builtin `parseFloat`, restricted to plain
decimal numerals (optional sign, digits, optional fraction; no exponent,
`Infinity` or hex forms): leading whitespace is skipped and the longest
numeric prefix is parsed, `none` standing for `NaN`. -/
def parseFloatModel (s : String) : Option ℚ :=
  match s.toList.dropWhile Char.isWhitespace with
  | [] => none
  | c :: t =>
    if c = '-' then (parseFloatCore t).map (fun q => -q)
    else if c = '+' then parseFloatCore t
    else parseFloatCore (c :: t)

/-- The part of a string before the first slash: `val.toString().split('/')[0]`. -/
def stringBeforeSlash (s : String) : String :=
  String.mk (s.toList.takeWhile (fun c => c ≠ '/'))

/-- A JSON note value as seen by the frontend: `null`, a number or a
string.  A missing field (`data.simetria?.nota` being `undefined`) is the
`none` of the surrounding `Option`. -/
inductive NoteVal where
  | vnull : NoteVal
  | vnum : ℚ → NoteVal
  | vstr : String → NoteVal
  deriving DecidableEq

/-- `parseScore` of `script.js` (lines 348-353): `!val` (missing, `null`,
`0`, the empty string) gives the default 50; a number maps to `val * 10`;
a string is split at the first slash and the `parseFloat` of the first
part is multiplied by 10, with 50 for an unparseable (`NaN`) part. -/
def parseScore (v : Option NoteVal) : ℚ :=
  match v with
  | none => 50
  | some NoteVal.vnull => 50
  | some (NoteVal.vnum n) => if n = 0 then 50 else n * 10
  | some (NoteVal.vstr s) =>
    if s = "" then 50
    else
      match parseFloatModel (stringBeforeSlash s) with
      | none => 50
      | some q => q * 10

/-- `calculateTextureMetric` of `script.js` (lines 498-502): `20` for a
null block, otherwise `Math.floor(Math.random() * 40) + 10`, with the
`Math.random()` draw made an explicit argument. -/
def calculateTextureMetricJS (rand : ℚ) : Option Region → ℚ
  | none => 20
  | some _ => ((⌊rand * 40⌋ : ℤ) : ℚ) + 10

/-- `calculateOilinessMetric` of `script.js` (line 503):
`Math.floor(Math.random() * 50) + 10`, ignoring its argument. -/
def calculateOilinessMetricJS (rand : ℚ) (_img : Option Region) : ℚ :=
  ((⌊rand * 50⌋ : ℤ) : ℚ) + 10

/-- `calculateBeardMetric` of `script.js` (line 504):
`Math.floor(Math.random() * 60)`, ignoring both arguments. -/
def calculateBeardMetricJS (rand : ℚ) (_chin _cheek : Option Region) : ℚ :=
  ((⌊rand * 60⌋ : ℤ) : ℚ)

/-- The three `Math.random()` draws consumed by one run of the `script.js`
`analyzeFaceFeatures` (texture, oiliness, beard). -/
structure Rng where
  r1 : ℚ
  r2 : ℚ
  r3 : ℚ

/-- The Analysis State record of `script.js` (line 18 plus the `insight`
field added by `captureSnapshot`). -/
structure AState where
  symmetry : ℚ
  texture : ℚ
  oiliness : ℚ
  beardDensity : ℚ
  insight : Option String
  deriving DecidableEq

/-- A detected face as the `script.js` adapter sees it: the new API's
`keypoints` or the old API's `scaledMesh`, either possibly absent. -/
structure Face where
  keypoints : Option Landmarks
  scaledMesh : Option Landmarks

/-- The adapter at the top of `script.js` `analyzeFaceFeatures`
(lines 424-437): prefer `keypoints`, fall back to `scaledMesh`. -/
def landmarksOf (f : Face) : Option Landmarks :=
  match f.keypoints with
  | some k => some k
  | none => f.scaledMesh

/-- `analyzeFaceFeatures` of `script.js` (lines 422-464) as a transformer
of the Analysis State: on missing landmarks the state is returned
unchanged (early `return`); otherwise all four scores are overwritten —
symmetry from the single cheek pair, texture `min(100, floor(tScore*2.5))`,
oiliness `min(100, mock)`, beard density the unclamped mock. -/
noncomputable def analyzeFaceFeaturesJS (f : Face) (rng : Rng) (s : AState) : AState :=
  match landmarksOf f with
  | none => s
  | some lm =>
    let cheekPixels := getRegionPixelsJS lm [123, 50, 205]
    let foreheadPixels := getRegionPixelsJS lm [10, 338, 297]
    let chinPixels := getRegionPixelsJS lm [152, 148, 176]
    { s with
      symmetry := ((symmetryScoreJS lm : ℤ) : ℚ)
      texture := min 100 ((⌊calculateTextureMetricJS rng.r1 cheekPixels * (5 / 2)⌋ : ℤ) : ℚ)
      oiliness := min 100 (calculateOilinessMetricJS rng.r2 foreheadPixels)
      beardDensity := calculateBeardMetricJS rng.r3 chinPixels cheekPixels }

/-- The JSON object the Gemini backend relays, as used by the frontend:
the two note fields and the suggestion array (each possibly missing). -/
structure GResp where
  simetriaNota : Option NoteVal
  peleNota : Option NoteVal
  sugestoes : Option (List String)

/-- The remote-derived state update of `captureSnapshot` (lines 342-368):
symmetry and texture from the parsed notes, oiliness and beard density set
to the neutral 50, insight from the first suggestion (if any). -/
def applyRemote (s : AState) (g : GResp) : AState :=
  { s with
    symmetry := parseScore g.simetriaNota
    texture := parseScore g.peleNota
    oiliness := 50
    beardDensity := 50
    insight := (g.sugestoes.getD []).head? }

/-- Outcome of one capture pass: full success, success without overlay
(no face detected after a successful remote call — alert, UI still
updated), or failure (`catch` branch: alert and `resetExperience`). -/
inductive PassResult where
  | success : PassResult
  | noOverlay : PassResult
  | failed : PassResult
  deriving DecidableEq

/-- `captureSnapshot` of `script.js` (lines 299-396) as a transition on
the Analysis State.  `remote` is the outcome of the fetch/parse of the
`/api/analisar-rosto` call (`Except.error` for a thrown fetch, a non-ok
status or a JSON parse failure), `faces` the outcome of the subsequent
`estimateFaces` call.  The `catch` branch alerts and calls
`resetExperience`, modelled by `PassResult.failed`; it performs no rollback
of the Analysis State. -/
noncomputable def captureSnapshot (s0 : AState) (remote : Except Unit GResp)
    (faces : Except Unit (List Face)) (rng : Rng) : AState × PassResult :=
  match remote with
  | Except.error _ => (s0, PassResult.failed)
  | Except.ok g =>
    match faces with
    | Except.error _ => (applyRemote s0 g, PassResult.failed)
    | Except.ok [] => (applyRemote s0 g, PassResult.noOverlay)
    | Except.ok (f :: _) =>
      (analyzeFaceFeaturesJS f rng (applyRemote s0 g), PassResult.success)

/-- Concrete region witnessing the non-null branch of the metric mocks. -/
def rgnC1 : Region := ⟨0, 0, 5, 5⟩

/-- Initial Analysis State for the atomicity counterexample. -/
def s0C7 : AState := ⟨0, 0, 0, 0, none⟩

/-- Remote verdict for the atomicity counterexample: notes 8 and 7. -/
def gC7 : GResp := ⟨some (NoteVal.vnum 8), some (NoteVal.vnum 7), none⟩

/-- Fixed random draws for the snapshot-flow theorems. -/
def rngC7 : Rng := ⟨0, 0, 0⟩

/-- Concrete landmark function for the C10 witness. -/
def lmC10 : Landmarks := fun _ => (0, 0)

/-- Concrete detected face (new-API keypoints present) for the C10 witness. -/
def faceC10 : Face := ⟨some lmC10, none⟩

/-- First prior state for the C10 witness. -/
def sC10a : AState := ⟨0, 0, 0, 0, none⟩

/-- Second prior state for the C10 witness. -/
def sC10b : AState := ⟨10, 20, 30, 40, some "x"⟩

/-- First remote verdict for the C10 witness (note 9). -/
def gC10a : GResp := ⟨some (NoteVal.vnum 9), none, none⟩

/-- Second remote verdict for the C10 witness (note 2, disagreeing). -/
def gC10b : GResp := ⟨some (NoteVal.vnum 2), some (NoteVal.vstr "3/10"), some ["dica"]⟩

/-- Fixed random draws for the C10 witness. -/
def rngC10 : Rng := ⟨1/4, 1/3, 1/5⟩

/-- The `jsonMatch` extraction of the Express endpoint (`part_001`,
line 77): the regex `\x7b[\s\S]*\x7d` is leftmost-greedy, so it matches
from the first opening brace to the last closing brace provided that
closing brace comes after; otherwise there is no match and the handler
throws. -/
def extractJsonBlock (s : String) : Option String :=
  let cs := s.toList
  match cs.findIdx? (fun c => c == Char.ofNat 123),
        cs.reverse.findIdx? (fun c => c == Char.ofNat 125) with
  | some i, some jr =>
    let j := cs.length - 1 - jr
    if i < j then some (String.mk ((cs.drop i).take (j - i + 1))) else none
  | _, _ => none

/-- The error payload text of the endpoint's `catch` branch (`part_001`,
line 90). -/
def serverErrMsg : String :=
  "Erro ao processar imagem com IA. Verifique os logs do servidor."

/-- `POST /api/analisar-rosto` of `part_001` (lines 32-92) as a function
of the uploaded file, the generative-model call outcome (`Except.error`
when `generateContent`/`response.text()` throws) and the `JSON.parse`
builtin (modelled as a parameter; `none` stands for a parse throw).
Returns the HTTP status and either the parsed JSON object or the error
payload. -/
def analisarRosto {α : Type} (file : Option (List ℕ)) (reply : Except Unit String)
    (parse : String → Option α) : ℕ × Except String α :=
  match file with
  | none => (400, Except.error ("Nenhuma imagem enviada."))
  | some _ =>
    match reply with
    | Except.error _ => (500, Except.error serverErrMsg)
    | Except.ok text =>
      match extractJsonBlock text with
      | none => (500, Except.error serverErrMsg)
      | some js =>
        match parse js with
        | none => (500, Except.error serverErrMsg)
        | some d => (200, Except.ok d)

/-- Concrete `JSON.parse` stand-in for the endpoint witness. -/
def parseW : String → Option ℕ :=
  fun j => if j = "\x7b1\x7d" then some 7 else none

/-- Concrete chin block with mean brightness 50 (the claim C4 example). -/
def chinBlockC4 : Block := [⟨50, 50, 50, 255⟩]

/-- Concrete cheek block with mean brightness 90 (the claim C4 example). -/
def cheekBlockC4 : Block := [⟨90, 90, 90, 255⟩]

end LosckMachine

namespace LosckMachine

/-- C4: for non-null, nonempty chin and cheek blocks, the beard density
score of `calculateBeardMetric` (`part_000`, lines 274-293) is `0` whenever
mean chin brightness is at least mean cheek brightness, and otherwise it is
the cheek-minus-chin mean difference doubled and clamped to at most 100
(hence it lies in `[0, 100]`). -/
theorem beardMetric_matches_mean_difference (chin cheek : Block)
    (_hchin : chin ≠ []) (_hcheek : cheek ≠ []) :
    (blockMean cheek ≤ blockMean chin →
      calculateBeardMetric (some chin) (some cheek) = 0) ∧
    (blockMean chin < blockMean cheek →
      calculateBeardMetric (some chin) (some cheek)
        = min 100 ((blockMean cheek - blockMean chin) * 2)) ∧
    0 ≤ calculateBeardMetric (some chin) (some cheek) ∧
    calculateBeardMetric (some chin) (some cheek) ≤ 100 := by
  unfold calculateBeardMetric
  set diff := blockMean cheek - blockMean chin with hdiff
  refine ⟨?_, ?_, ?_, ?_⟩
  · intro h
    have : ¬ 0 < diff := by simp [hdiff]; linarith
    simp [this]
  · intro h
    have : 0 < diff := by simp [hdiff]; linarith
    simp [this]
  · by_cases h : 0 < diff
    · simp only [h, if_true]
      have h2 : (0 : ℚ) ≤ diff * 2 := by linarith
      exact le_min (by norm_num) h2
    · simp [h]
  · by_cases h : 0 < diff
    · simp only [h, if_true]
      exact min_le_left _ _
    · simp [h]

/-- Rounding is monotone (`Math.round` preserves order). -/
theorem round_le_round_of_le {x y : ℝ} (h : x ≤ y) : round x ≤ round y := by
  rw [round_eq, round_eq]
  exact Int.floor_le_floor (by linarith)

/-- Rounding a nonnegative number is nonnegative. -/
theorem round_nonneg_of_nonneg {x : ℝ} (h : 0 ≤ x) : 0 ≤ round x := by
  rw [round_eq]
  exact Int.le_floor.mpr (by push_cast; linarith)

/-- Rational version of `round_le_round_of_le`. -/
theorem round_le_round_of_le_rat {x y : ℚ} (h : x ≤ y) : round x ≤ round y := by
  rw [round_eq, round_eq]
  exact Int.floor_le_floor (by linarith)

/-- Rational version of `round_nonneg_of_nonneg`. -/
theorem round_nonneg_of_nonneg_rat {x : ℚ} (h : 0 ≤ x) : 0 ≤ round x := by
  rw [round_eq]
  exact Int.le_floor.mpr (by push_cast; linarith)

/-- C4 witness: chin mean 50 and cheek mean 90 give beard score
`min(100, (90-50)*2) = 80`, obtained through the main theorem. -/
theorem beardMetric_matches_mean_difference_witness :
    calculateBeardMetric (some chinBlockC4) (some cheekBlockC4) = 80 := by
  have h := (beardMetric_matches_mean_difference chinBlockC4 cheekBlockC4
    (by decide) (by decide)).2.1
  have hm1 : blockMean chinBlockC4 = 50 := by
    norm_num [chinBlockC4, blockMean, sumBrightness, brightness]
  have hm2 : blockMean cheekBlockC4 = 90 := by
    norm_num [cheekBlockC4, blockMean, sumBrightness, brightness]
  rw [hm1, hm2] at h
  have := h (by norm_num)
  rw [this]
  norm_num

/-- C5: the published texture and oiliness scores of `part_000`
(`analyzeFaceFeatures`, lines 188-199, over `calculateTextureMetric` and
`calculateOilinessMetric`) always lie in `[0, 100]`, the texture score is
monotonically non-decreasing in the block's brightness variance, and the
oiliness score is monotonically non-decreasing in the block's fraction of
pixels above the brightness threshold. -/
theorem texture_oiliness_bounded_monotone (b1 b2 : Block)
    (_h1 : b1 ≠ []) (_h2 : b2 ≠ []) :
    (0 ≤ textureScore000 (some b1) ∧ textureScore000 (some b1) ≤ 100) ∧
    (0 ≤ oilinessScore000 (some b1) ∧ oilinessScore000 (some b1) ≤ 100) ∧
    (blockVariance b1 ≤ blockVariance b2 →
      textureScore000 (some b1) ≤ textureScore000 (some b2)) ∧
    (brightFraction b1 ≤ brightFraction b2 →
      oilinessScore000 (some b1) ≤ oilinessScore000 (some b2)) := by
  refine ⟨⟨?_, ?_⟩, ⟨?_, ?_⟩, ?_, ?_⟩
  · unfold textureScore000 calculateTextureMetric
    refine le_min (by norm_num) (round_nonneg_of_nonneg ?_)
    have := Real.sqrt_nonneg ((blockVariance b1 : ℚ) : ℝ)
    linarith
  · exact min_le_left _ _
  · simp only [oilinessScore000, calculateOilinessMetric]
    refine le_min (by norm_num) (round_nonneg_of_nonneg_rat ?_)
    have hf : 0 ≤ brightFraction b1 := by
      unfold brightFraction
      positivity
    linarith
  · exact min_le_left _ _
  · intro h
    unfold textureScore000 calculateTextureMetric
    refine min_le_min le_rfl (round_le_round_of_le ?_)
    have hs : Real.sqrt ((blockVariance b1 : ℚ) : ℝ)
        ≤ Real.sqrt ((blockVariance b2 : ℚ) : ℝ) :=
      Real.sqrt_le_sqrt (by exact_mod_cast h)
    linarith
  · intro h
    simp only [oilinessScore000, calculateOilinessMetric]
    refine min_le_min le_rfl (round_le_round_of_le_rat ?_)
    nlinarith

/-- C5 witness: the bounds and both monotonicity steps hold for the
concrete uniform gray block and the two-tone block. -/
theorem texture_oiliness_bounded_monotone_witness :
    (0 ≤ textureScore000 (some [⟨50, 50, 50, 255⟩])
      ∧ textureScore000 (some [⟨50, 50, 50, 255⟩]) ≤ 100) ∧
    (0 ≤ oilinessScore000 (some [⟨50, 50, 50, 255⟩])
      ∧ oilinessScore000 (some [⟨50, 50, 50, 255⟩]) ≤ 100) ∧
    (blockVariance [⟨50, 50, 50, 255⟩]
        ≤ blockVariance [⟨0, 0, 0, 255⟩, ⟨60, 60, 60, 255⟩] →
      textureScore000 (some [⟨50, 50, 50, 255⟩])
        ≤ textureScore000 (some [⟨0, 0, 0, 255⟩, ⟨60, 60, 60, 255⟩])) ∧
    (brightFraction [⟨50, 50, 50, 255⟩]
        ≤ brightFraction [⟨0, 0, 0, 255⟩, ⟨60, 60, 60, 255⟩] →
      oilinessScore000 (some [⟨50, 50, 50, 255⟩])
        ≤ oilinessScore000 (some [⟨0, 0, 0, 255⟩, ⟨60, 60, 60, 255⟩])) :=
  texture_oiliness_bounded_monotone
    [⟨50, 50, 50, 255⟩] [⟨0, 0, 0, 255⟩, ⟨60, 60, 60, 255⟩]
    (by decide) (by decide)

/-- Euclidean distance is nonnegative. -/
theorem euclideanDist_nonneg (p q : ℚ × ℚ) : 0 ≤ euclideanDist p q :=
  Real.sqrt_nonneg _

/-- Evaluation helper: the distance equals `d` once the sum of squares is
recognised as `d ^ 2`. -/
theorem euclideanDist_eq (p q : ℚ × ℚ) (d : ℝ) (h0 : 0 ≤ d)
    (h : ((p.1 : ℝ) - (q.1 : ℝ)) ^ 2 + ((p.2 : ℝ) - (q.2 : ℝ)) ^ 2 = d ^ 2) :
    euclideanDist p q = d := by
  rw [euclideanDist, h]
  exact Real.sqrt_sq h0

/-- C2 (amended): for every landmark set whose longer paired distance is
positive, the `script.js` symmetry score lies in `[0, 100]`, and it equals
100 exactly when the shorter distance is at least `199/200` of the longer
one — so equal distances give 100, but so do near-equal ones. -/
theorem symmetryJS_range_and_full_score (lm : Landmarks)
    (hpos : 0 < max (euclideanDist (lm 1) (lm 234)) (euclideanDist (lm 1) (lm 454))) :
    (0 ≤ symmetryScoreJS lm ∧ symmetryScoreJS lm ≤ 100) ∧
    (symmetryScoreJS lm = 100 ↔
      (199 : ℝ) / 200
          * max (euclideanDist (lm 1) (lm 234)) (euclideanDist (lm 1) (lm 454))
        ≤ min (euclideanDist (lm 1) (lm 234)) (euclideanDist (lm 1) (lm 454))) := by
  set a := min (euclideanDist (lm 1) (lm 234)) (euclideanDist (lm 1) (lm 454)) with ha
  set b := max (euclideanDist (lm 1) (lm 234)) (euclideanDist (lm 1) (lm 454)) with hb
  have ha0 : 0 ≤ a := le_min (euclideanDist_nonneg _ _) (euclideanDist_nonneg _ _)
  have hab : a ≤ b := min_le_max
  have hratio0 : 0 ≤ a / b := div_nonneg ha0 (le_of_lt hpos)
  have hratio1 : a / b ≤ 1 := (div_le_one hpos).mpr hab
  have hscore : symmetryScoreJS lm = round (a / b * 100) := rfl
  refine ⟨⟨?_, ?_⟩, ?_⟩
  · rw [hscore]
    exact round_nonneg_of_nonneg (by nlinarith)
  · rw [hscore, round_eq]
    have : a / b * 100 + 1 / 2 < 101 := by nlinarith
    have hlt := Int.floor_lt.mpr (by push_cast; linarith : a / b * 100 + 1 / 2 < ((101 : ℤ) : ℝ))
    omega
  · rw [hscore, round_eq]
    constructor
    · intro h
      have hge := (Int.floor_eq_iff.mp h).1
      push_cast at hge
      rw [div_le_iff₀ hpos] at *
      nlinarith [(le_div_iff₀ hpos).mp (by nlinarith : (199 : ℝ) / 200 ≤ a / b)]
    · intro h
      have hr : (199 : ℝ) / 200 ≤ a / b := (le_div_iff₀ hpos).mpr h
      refine Int.floor_eq_iff.mpr ⟨?_, ?_⟩
      · push_cast
        nlinarith
      · push_cast
        nlinarith

/-- C2 counterexample: with paired distances 1000 and 996 the `script.js`
symmetry score is still 100 although the distances are not equal, refuting
the "equals 100 only if exactly equal" direction of the claim. -/
theorem symmetryJS_full_score_without_equal_distances :
    symmetryScoreJS lmNearMirror = 100 ∧
    euclideanDist (lmNearMirror 1) (lmNearMirror 234)
      ≠ euclideanDist (lmNearMirror 1) (lmNearMirror 454) := by
  have hdL : euclideanDist (lmNearMirror 1) (lmNearMirror 234) = 1000 := by
    apply euclideanDist_eq _ _ _ (by norm_num)
    norm_num [lmNearMirror]
  have hdR : euclideanDist (lmNearMirror 1) (lmNearMirror 454) = 996 := by
    apply euclideanDist_eq _ _ _ (by norm_num)
    norm_num [lmNearMirror]
  constructor
  · have hscore : symmetryScoreJS lmNearMirror
        = round (min (1000 : ℝ) 996 / max (1000 : ℝ) 996 * 100) := by
      rw [symmetryScoreJS, hdL, hdR]
    rw [hscore, min_eq_right (by norm_num), max_eq_left (by norm_num), round_eq]
    refine Int.floor_eq_iff.mpr ⟨?_, ?_⟩ <;> push_cast <;> norm_num
  · rw [hdL, hdR]
    norm_num

/-- C2 witness: the claim's example (nose `(100,100)`, left `(80,100)`,
right `(120,100)`) gives symmetry 100, via the main theorem. -/
theorem symmetryJS_range_and_full_score_witness :
    symmetryScoreJS lmExample = 100 := by
  have hdL : euclideanDist (lmExample 1) (lmExample 234) = 20 := by
    apply euclideanDist_eq _ _ _ (by norm_num)
    norm_num [lmExample]
  have hdR : euclideanDist (lmExample 1) (lmExample 454) = 20 := by
    apply euclideanDist_eq _ _ _ (by norm_num)
    norm_num [lmExample]
  have hpos : 0 < max (euclideanDist (lmExample 1) (lmExample 234))
      (euclideanDist (lmExample 1) (lmExample 454)) := by
    rw [hdL, hdR]
    norm_num
  refine ((symmetryJS_range_and_full_score lmExample hpos).2).mpr ?_
  rw [hdL, hdR]
  norm_num

/-- C3 (amended): the `part_000` symmetry score is exactly the
specification's formula — shorter-to-longer ratio of the two paired
distances, averaged over the cheek and eye pairs, scaled to 0-100 — and
it yields 100 for perfectly mirrored pairs.  (The `script.js` snapshot-flow
variant uses only the cheek pair; see the counterexample.) -/
theorem symmetry000_matches_spec_formula (lm : Landmarks) :
    symmetryScore000 lm = round (specSymmetryValue lm) ∧
    (euclideanDist (lm 1) (lm 234) = euclideanDist (lm 1) (lm 454) →
     euclideanDist (lm 1) (lm 33) = euclideanDist (lm 1) (lm 263) →
     0 < euclideanDist (lm 1) (lm 454) →
     0 < euclideanDist (lm 1) (lm 263) →
     symmetryScore000 lm = 100) := by
  constructor
  · rfl
  · intro h1 h2 hp1 hp2
    rw [symmetryScore000, h1, h2, min_self, min_self, max_self, max_self,
      div_self (ne_of_gt hp1), div_self (ne_of_gt hp2)]
    norm_num

/-- C3 counterexample: on a landmark set with a mirrored cheek pair but an
uneven eye pair, the `script.js` symmetry score (100) differs from the
specification's two-pair averaged formula (75): the snapshot-flow score is
not computed as the claim describes. -/
theorem symmetryJS_differs_from_spec_formula :
    symmetryScoreJS lmTwoPair ≠ round (specSymmetryValue lmTwoPair) := by
  have hd234 : euclideanDist (lmTwoPair 1) (lmTwoPair 234) = 10 := by
    apply euclideanDist_eq _ _ _ (by norm_num)
    norm_num [lmTwoPair]
  have hd454 : euclideanDist (lmTwoPair 1) (lmTwoPair 454) = 10 := by
    apply euclideanDist_eq _ _ _ (by norm_num)
    norm_num [lmTwoPair]
  have hd33 : euclideanDist (lmTwoPair 1) (lmTwoPair 33) = 4 := by
    apply euclideanDist_eq _ _ _ (by norm_num)
    norm_num [lmTwoPair]
  have hd263 : euclideanDist (lmTwoPair 1) (lmTwoPair 263) = 8 := by
    apply euclideanDist_eq _ _ _ (by norm_num)
    norm_num [lmTwoPair]
  have hjs : symmetryScoreJS lmTwoPair = 100 := by
    have : symmetryScoreJS lmTwoPair
        = round (min (10 : ℝ) 10 / max (10 : ℝ) 10 * 100) := by
      rw [symmetryScoreJS, hd234, hd454]
    rw [this, min_self, max_self, div_self (by norm_num : (10 : ℝ) ≠ 0)]
    norm_num
  have hspec : round (specSymmetryValue lmTwoPair) = 75 := by
    have : specSymmetryValue lmTwoPair
        = (min (10 : ℝ) 10 / max (10 : ℝ) 10 + min (4 : ℝ) 8 / max (4 : ℝ) 8) / 2 * 100 := by
      rw [specSymmetryValue, hd234, hd454, hd33, hd263]
    rw [this, min_self, max_self, div_self (by norm_num : (10 : ℝ) ≠ 0),
      min_eq_left (by norm_num), max_eq_right (by norm_num),
      show ((1 : ℝ) + 4 / 8) / 2 * 100 = ((75 : ℤ) : ℝ) by norm_num, round_intCast]
  rw [hjs, hspec]
  norm_num

/-- C3 witness: on a landmark set with both pairs perfectly mirrored the
`part_000` score is 100, obtained through the amended theorem. -/
theorem symmetry000_matches_spec_formula_witness :
    symmetryScore000 lmEqualPairs = 100 := by
  have hd234 : euclideanDist (lmEqualPairs 1) (lmEqualPairs 234) = 20 := by
    apply euclideanDist_eq _ _ _ (by norm_num)
    norm_num [lmEqualPairs]
  have hd454 : euclideanDist (lmEqualPairs 1) (lmEqualPairs 454) = 20 := by
    apply euclideanDist_eq _ _ _ (by norm_num)
    norm_num [lmEqualPairs]
  have hd33 : euclideanDist (lmEqualPairs 1) (lmEqualPairs 33) = 10 := by
    apply euclideanDist_eq _ _ _ (by norm_num)
    norm_num [lmEqualPairs]
  have hd263 : euclideanDist (lmEqualPairs 1) (lmEqualPairs 263) = 10 := by
    apply euclideanDist_eq _ _ _ (by norm_num)
    norm_num [lmEqualPairs]
  exact (symmetry000_matches_spec_formula lmEqualPairs).2
    (by rw [hd234, hd454]) (by rw [hd33, hd263])
    (by rw [hd454]; norm_num) (by rw [hd263]; norm_num)

/-- A `foldl min` never exceeds its initial accumulator. -/
theorem foldl_min_le_init (l : List ℚ) (a : ℚ) : l.foldl min a ≤ a := by
  induction l generalizing a with
  | nil => simp
  | cons x t ih => exact le_trans (ih (min a x)) (min_le_left a x)

/-- A lower bound of the accumulator and all elements bounds `foldl min`. -/
theorem le_foldl_min (l : List ℚ) (a c : ℚ) (ha : c ≤ a)
    (h : ∀ x ∈ l, c ≤ x) : c ≤ l.foldl min a := by
  induction l generalizing a with
  | nil => simpa
  | cons x t ih =>
    exact ih (min a x) (le_min ha (h x (List.mem_cons_self x t)))
      (fun y hy => h y (List.mem_cons_of_mem x hy))

/-- A `foldl max` is at least its initial accumulator. -/
theorem init_le_foldl_max (l : List ℚ) (a : ℚ) : a ≤ l.foldl max a := by
  induction l generalizing a with
  | nil => simp
  | cons x t ih => exact le_trans (le_max_left a x) (ih (max a x))

/-- An upper bound of the accumulator and all elements bounds `foldl max`. -/
theorem foldl_max_le (l : List ℚ) (a c : ℚ) (ha : a ≤ c)
    (h : ∀ x ∈ l, x ≤ c) : l.foldl max a ≤ c := by
  induction l generalizing a with
  | nil => simpa
  | cons x t ih =>
    exact ih (max a x) (max_le ha (h x (List.mem_cons_self x t)))
      (fun y hy => h y (List.mem_cons_of_mem x hy))

/-- A lower bound of every element of a nonempty list bounds `listMin`. -/
theorem le_listMin (l : List ℚ) (c : ℚ) (hne : l ≠ [])
    (h : ∀ x ∈ l, c ≤ x) : c ≤ listMin l := by
  cases l with
  | nil => exact absurd rfl hne
  | cons x t =>
    exact le_foldl_min t x c (h x (List.mem_cons_self x t))
      (fun y hy => h y (List.mem_cons_of_mem x hy))

/-- An upper bound of every element of a nonempty list bounds `listMax`. -/
theorem listMax_le (l : List ℚ) (c : ℚ) (hne : l ≠ [])
    (h : ∀ x ∈ l, x ≤ c) : listMax l ≤ c := by
  cases l with
  | nil => exact absurd rfl hne
  | cons x t =>
    exact foldl_max_le t x c (h x (List.mem_cons_self x t))
      (fun y hy => h y (List.mem_cons_of_mem x hy))

/-- C6: for a nonempty index list, `getRegionPixels` of `part_000` returns
"no region" exactly when the landmark bounding box, clamped to the `W × H`
frame, has non-positive width or height — in particular when the selected
landmarks share one x (or y) coordinate (zero area) or all lie on one side
outside the frame — and otherwise returns the clamped pixel rectangle,
which is positive-sized and contained in the frame. -/
theorem getRegionPixels_clamped_box (W H : ℚ) (lm : Landmarks)
    (indices : List ℕ) (hne : indices ≠ []) :
    (getRegionPixels W H lm indices = none ↔
      min W (listMax ((indices.map lm).map Prod.fst))
        - max 0 (listMin ((indices.map lm).map Prod.fst)) ≤ 0 ∨
      min H (listMax ((indices.map lm).map Prod.snd))
        - max 0 (listMin ((indices.map lm).map Prod.snd)) ≤ 0) ∧
    ((∃ c, ∀ j ∈ indices, (lm j).1 = c) → getRegionPixels W H lm indices = none) ∧
    ((∃ c, ∀ j ∈ indices, (lm j).2 = c) → getRegionPixels W H lm indices = none) ∧
    ((∀ j ∈ indices, (lm j).1 ≤ 0) → getRegionPixels W H lm indices = none) ∧
    ((∀ j ∈ indices, W ≤ (lm j).1) → getRegionPixels W H lm indices = none) ∧
    ((∀ j ∈ indices, (lm j).2 ≤ 0) → getRegionPixels W H lm indices = none) ∧
    ((∀ j ∈ indices, H ≤ (lm j).2) → getRegionPixels W H lm indices = none) ∧
    (∀ r, getRegionPixels W H lm indices = some r →
      r.x = max 0 (listMin ((indices.map lm).map Prod.fst)) ∧
      r.y = max 0 (listMin ((indices.map lm).map Prod.snd)) ∧
      r.w = min W (listMax ((indices.map lm).map Prod.fst)) - r.x ∧
      r.h = min H (listMax ((indices.map lm).map Prod.snd)) - r.y ∧
      0 < r.w ∧ 0 < r.h ∧ 0 ≤ r.x ∧ 0 ≤ r.y ∧ r.x + r.w ≤ W ∧ r.y + r.h ≤ H) := by
  rcases indices with _ | ⟨i, t⟩
  · exact absurd rfl hne
  have hxne : (((i :: t).map lm).map Prod.fst) ≠ [] := by simp
  have hyne : (((i :: t).map lm).map Prod.snd) ≠ [] := by simp
  have hred : getRegionPixels W H lm (i :: t)
      = if min W (listMax (((i :: t).map lm).map Prod.fst))
            - max 0 (listMin (((i :: t).map lm).map Prod.fst)) ≤ 0
          ∨ min H (listMax (((i :: t).map lm).map Prod.snd))
            - max 0 (listMin (((i :: t).map lm).map Prod.snd)) ≤ 0
        then none
        else some ⟨max 0 (listMin (((i :: t).map lm).map Prod.fst)),
                   max 0 (listMin (((i :: t).map lm).map Prod.snd)),
                   min W (listMax (((i :: t).map lm).map Prod.fst))
                     - max 0 (listMin (((i :: t).map lm).map Prod.fst)),
                   min H (listMax (((i :: t).map lm).map Prod.snd))
                     - max 0 (listMin (((i :: t).map lm).map Prod.snd))⟩ := rfl
  have hiff : getRegionPixels W H lm (i :: t) = none ↔
      min W (listMax (((i :: t).map lm).map Prod.fst))
        - max 0 (listMin (((i :: t).map lm).map Prod.fst)) ≤ 0 ∨
      min H (listMax (((i :: t).map lm).map Prod.snd))
        - max 0 (listMin (((i :: t).map lm).map Prod.snd)) ≤ 0 := by
    rw [hred]
    constructor
    · intro hnone
      by_contra hc
      rw [if_neg hc] at hnone
      exact absurd hnone (by simp)
    · intro hc
      rw [if_pos hc]
  refine ⟨hiff, ?_, ?_, ?_, ?_, ?_, ?_, ?_⟩
  · rintro ⟨c, hc⟩
    refine hiff.mpr (Or.inl ?_)
    have h1 : listMax (((i :: t).map lm).map Prod.fst) ≤ c := by
      refine listMax_le _ _ hxne ?_
      intro x hx
      simp only [List.mem_map] at hx
      obtain ⟨p, ⟨j, hj, rfl⟩, rfl⟩ := hx
      exact le_of_eq (hc j hj)
    have h2 : c ≤ listMin (((i :: t).map lm).map Prod.fst) := by
      refine le_listMin _ _ hxne ?_
      intro x hx
      simp only [List.mem_map] at hx
      obtain ⟨p, ⟨j, hj, rfl⟩, rfl⟩ := hx
      exact ge_of_eq (hc j hj)
    have h3 : min W (listMax (((i :: t).map lm).map Prod.fst))
        ≤ max 0 (listMin (((i :: t).map lm).map Prod.fst)) :=
      le_trans (min_le_right _ _) (le_trans h1 (le_trans h2 (le_max_right 0 _)))
    linarith
  · rintro ⟨c, hc⟩
    refine hiff.mpr (Or.inr ?_)
    have h1 : listMax (((i :: t).map lm).map Prod.snd) ≤ c := by
      refine listMax_le _ _ hyne ?_
      intro x hx
      simp only [List.mem_map] at hx
      obtain ⟨p, ⟨j, hj, rfl⟩, rfl⟩ := hx
      exact le_of_eq (hc j hj)
    have h2 : c ≤ listMin (((i :: t).map lm).map Prod.snd) := by
      refine le_listMin _ _ hyne ?_
      intro x hx
      simp only [List.mem_map] at hx
      obtain ⟨p, ⟨j, hj, rfl⟩, rfl⟩ := hx
      exact ge_of_eq (hc j hj)
    have h3 : min H (listMax (((i :: t).map lm).map Prod.snd))
        ≤ max 0 (listMin (((i :: t).map lm).map Prod.snd)) :=
      le_trans (min_le_right _ _) (le_trans h1 (le_trans h2 (le_max_right 0 _)))
    linarith
  · intro hc
    refine hiff.mpr (Or.inl ?_)
    have h1 : listMax (((i :: t).map lm).map Prod.fst) ≤ 0 := by
      refine listMax_le _ _ hxne ?_
      intro x hx
      simp only [List.mem_map] at hx
      obtain ⟨p, ⟨j, hj, rfl⟩, rfl⟩ := hx
      exact hc j hj
    have h3 : min W (listMax (((i :: t).map lm).map Prod.fst))
        ≤ max 0 (listMin (((i :: t).map lm).map Prod.fst)) :=
      le_trans (min_le_right _ _) (le_trans h1 (le_max_left 0 _))
    linarith
  · intro hc
    refine hiff.mpr (Or.inl ?_)
    have h2 : W ≤ listMin (((i :: t).map lm).map Prod.fst) := by
      refine le_listMin _ _ hxne ?_
      intro x hx
      simp only [List.mem_map] at hx
      obtain ⟨p, ⟨j, hj, rfl⟩, rfl⟩ := hx
      exact hc j hj
    have h3 : min W (listMax (((i :: t).map lm).map Prod.fst))
        ≤ max 0 (listMin (((i :: t).map lm).map Prod.fst)) :=
      le_trans (min_le_left _ _) (le_trans h2 (le_max_right 0 _))
    linarith
  · intro hc
    refine hiff.mpr (Or.inr ?_)
    have h1 : listMax (((i :: t).map lm).map Prod.snd) ≤ 0 := by
      refine listMax_le _ _ hyne ?_
      intro x hx
      simp only [List.mem_map] at hx
      obtain ⟨p, ⟨j, hj, rfl⟩, rfl⟩ := hx
      exact hc j hj
    have h3 : min H (listMax (((i :: t).map lm).map Prod.snd))
        ≤ max 0 (listMin (((i :: t).map lm).map Prod.snd)) :=
      le_trans (min_le_right _ _) (le_trans h1 (le_max_left 0 _))
    linarith
  · intro hc
    refine hiff.mpr (Or.inr ?_)
    have h2 : H ≤ listMin (((i :: t).map lm).map Prod.snd) := by
      refine le_listMin _ _ hyne ?_
      intro x hx
      simp only [List.mem_map] at hx
      obtain ⟨p, ⟨j, hj, rfl⟩, rfl⟩ := hx
      exact hc j hj
    have h3 : min H (listMax (((i :: t).map lm).map Prod.snd))
        ≤ max 0 (listMin (((i :: t).map lm).map Prod.snd)) :=
      le_trans (min_le_left _ _) (le_trans h2 (le_max_right 0 _))
    linarith
  · intro r hr
    rw [hred] at hr
    by_cases h : min W (listMax (((i :: t).map lm).map Prod.fst))
        - max 0 (listMin (((i :: t).map lm).map Prod.fst)) ≤ 0
      ∨ min H (listMax (((i :: t).map lm).map Prod.snd))
        - max 0 (listMin (((i :: t).map lm).map Prod.snd)) ≤ 0
    · rw [if_pos h] at hr
      exact absurd hr (by simp)
    · rw [if_neg h] at hr
      push_neg at h
      obtain ⟨hw, hh⟩ := h
      injection hr with hr'
      subst hr'
      dsimp only
      refine ⟨rfl, rfl, rfl, rfl, by linarith, by linarith, le_max_left 0 _,
        le_max_left 0 _, ?_, ?_⟩
      · have hmle := min_le_left W (listMax (((i :: t).map lm).map Prod.fst))
        linarith
      · have hmle := min_le_left H (listMax (((i :: t).map lm).map Prod.snd))
        linarith

/-- C6 witness: the characterisation instantiated on a concrete 640x480
frame and a two-landmark index list. -/
theorem getRegionPixels_clamped_box_witness :
    (getRegionPixels 640 480 lmRegionW [0, 1] = none ↔
      min 640 (listMax ((([0, 1].map lmRegionW)).map Prod.fst))
        - max 0 (listMin ((([0, 1].map lmRegionW)).map Prod.fst)) ≤ 0 ∨
      min 480 (listMax ((([0, 1].map lmRegionW)).map Prod.snd))
        - max 0 (listMin ((([0, 1].map lmRegionW)).map Prod.snd)) ≤ 0) ∧
    ((∃ c, ∀ j ∈ [0, 1], (lmRegionW j).1 = c) →
      getRegionPixels 640 480 lmRegionW [0, 1] = none) ∧
    ((∃ c, ∀ j ∈ [0, 1], (lmRegionW j).2 = c) →
      getRegionPixels 640 480 lmRegionW [0, 1] = none) ∧
    ((∀ j ∈ [0, 1], (lmRegionW j).1 ≤ 0) →
      getRegionPixels 640 480 lmRegionW [0, 1] = none) ∧
    ((∀ j ∈ [0, 1], (640 : ℚ) ≤ (lmRegionW j).1) →
      getRegionPixels 640 480 lmRegionW [0, 1] = none) ∧
    ((∀ j ∈ [0, 1], (lmRegionW j).2 ≤ 0) →
      getRegionPixels 640 480 lmRegionW [0, 1] = none) ∧
    ((∀ j ∈ [0, 1], (480 : ℚ) ≤ (lmRegionW j).2) →
      getRegionPixels 640 480 lmRegionW [0, 1] = none) ∧
    (∀ r, getRegionPixels 640 480 lmRegionW [0, 1] = some r →
      r.x = max 0 (listMin ((([0, 1].map lmRegionW)).map Prod.fst)) ∧
      r.y = max 0 (listMin ((([0, 1].map lmRegionW)).map Prod.snd)) ∧
      r.w = min 640 (listMax ((([0, 1].map lmRegionW)).map Prod.fst)) - r.x ∧
      r.h = min 480 (listMax ((([0, 1].map lmRegionW)).map Prod.snd)) - r.y ∧
      0 < r.w ∧ 0 < r.h ∧ 0 ≤ r.x ∧ 0 ≤ r.y ∧ r.x + r.w ≤ 640 ∧ r.y + r.h ≤ 480) :=
  getRegionPixels_clamped_box 640 480 lmRegionW [0, 1] (by decide)

/-- C1: the `script.js` Metric Engine mocks are not deterministic in the
frame and landmarks — with the same (non-null) pixel block, two
invocations whose `Math.random()` draws are `0` and `1/2` return different
texture, oiliness and beard scores. -/
theorem metric_mocks_depend_on_random_draw :
    calculateTextureMetricJS 0 (some rgnC1)
      ≠ calculateTextureMetricJS (1 / 2) (some rgnC1) ∧
    calculateOilinessMetricJS 0 (some rgnC1)
      ≠ calculateOilinessMetricJS (1 / 2) (some rgnC1) ∧
    calculateBeardMetricJS 0 none none
      ≠ calculateBeardMetricJS (1 / 2) none none := by
  refine ⟨?_, ?_, ?_⟩ <;>
    norm_num [calculateTextureMetricJS, calculateOilinessMetricJS,
      calculateBeardMetricJS]

/-- C7 counterexample: a pass whose remote call succeeds but whose
subsequent landmark detection throws ends in the failed/reset outcome, yet
the Analysis State is not the one from before the pass — the remote score
updates survive. -/
theorem capture_failure_keeps_partial_updates :
    (captureSnapshot s0C7 (Except.ok gC7) (Except.error ()) rngC7).2
      = PassResult.failed ∧
    (captureSnapshot s0C7 (Except.ok gC7) (Except.error ()) rngC7).1.symmetry
      ≠ s0C7.symmetry := by
  constructor
  · rfl
  · intro h
    norm_num [captureSnapshot, applyRemote, parseScore, s0C7, gC7] at h

/-- C7 (amended): only a failure of the remote call itself leaves the
Analysis State untouched (the pass then reports failure and resets to
idle); a pass failing after the remote response also reports failure and
resets, but keeps the remote-derived intermediate updates — there is no
rollback. -/
theorem capture_no_rollback_after_remote (s0 : AState) (g : GResp)
    (rng : Rng) (faces : Except Unit (List Face)) :
    captureSnapshot s0 (Except.error ()) faces rng = (s0, PassResult.failed) ∧
    captureSnapshot s0 (Except.ok g) (Except.error ()) rng
      = (applyRemote s0 g, PassResult.failed) :=
  ⟨rfl, rfl⟩

/-- C9 counterexample: `parseScore` maps the numeric note `0` to the
default 50 (not `0 * 10 = 0`, because `!val` is true for `0`), and maps
the out-of-protocol numeric note `11` to `110`, outside the 0-100 scale. -/
theorem parseScore_zero_and_overflow :
    parseScore (some (NoteVal.vnum 0)) = 50 ∧
    parseScore (some (NoteVal.vnum 11)) = 110 := by
  norm_num [parseScore]

/-- C9 (amended): `parseScore` is total; missing, `null`, numeric-zero and
empty-string notes give the default 50; a nonzero numeric note `n` gives
`n * 10`; a nonempty string note gives ten times the `parseFloat` of its
part before the first slash (50 when unparseable); and the result lies on
the 0-100 scale for numeric notes within the documented 0-10 range. -/
theorem parseScore_total_behavior :
    (parseScore none = 50 ∧ parseScore (some NoteVal.vnull) = 50 ∧
     parseScore (some (NoteVal.vnum 0)) = 50 ∧
     parseScore (some (NoteVal.vstr "")) = 50) ∧
    (∀ n : ℚ, n ≠ 0 → parseScore (some (NoteVal.vnum n)) = n * 10) ∧
    (∀ s : String, ∀ q : ℚ, s ≠ "" →
      parseFloatModel (stringBeforeSlash s) = some q →
      parseScore (some (NoteVal.vstr s)) = q * 10) ∧
    (∀ s : String, s ≠ "" →
      parseFloatModel (stringBeforeSlash s) = none →
      parseScore (some (NoteVal.vstr s)) = 50) ∧
    (∀ n : ℚ, 0 ≤ n → n ≤ 10 →
      0 ≤ parseScore (some (NoteVal.vnum n)) ∧
      parseScore (some (NoteVal.vnum n)) ≤ 100) := by
  refine ⟨⟨rfl, rfl, ?_, ?_⟩, ?_, ?_, ?_, ?_⟩
  · norm_num [parseScore]
  · simp [parseScore]
  · intro n hn
    simp [parseScore, hn]
  · intro s q hs hq
    simp [parseScore, hs, hq]
  · intro s hs hq
    simp [parseScore, hs, hq]
  · intro n h0 h10
    by_cases hn : n = 0
    · subst hn
      norm_num [parseScore]
    · simp only [parseScore, if_neg hn]
      constructor <;> nlinarith

/-- On a nonempty all-digit character list the `parseFloat` model returns
the digit value. -/
theorem parseFloatCore_all_digits (cs : List Char) (hne : cs ≠ [])
    (hd : ∀ c ∈ cs, c.isDigit = true) :
    parseFloatCore cs = some (digitsVal cs) := by
  have htake : cs.takeWhile Char.isDigit = cs := List.takeWhile_eq_self_iff.mpr hd
  have hdrop : cs.dropWhile Char.isDigit = [] := by
    rw [List.dropWhile_eq_nil_iff]
    intro x hx
    simp [hd x hx]
  simp only [parseFloatCore, htake, hdrop]
  have : cs.isEmpty = false := by
    cases cs with
    | nil => exact absurd rfl hne
    | cons a t => rfl
  simp [this, digitsVal]

/-- C9 witness: the documented note form works through the amended
theorem — the note `"8/10"` is parsed to 80. -/
theorem parseScore_total_behavior_witness :
    parseScore (some (NoteVal.vstr ("8/10"))) = 80 := by
  have hpf : parseFloatModel (stringBeforeSlash ("8/10")) = some 8 := by
    have h1 : stringBeforeSlash ("8/10") = "8" := by decide
    have h2 : ("8").toList.dropWhile Char.isWhitespace = ['8'] := by decide
    have h3 : parseFloatCore ['8'] = some (digitsVal ['8']) :=
      parseFloatCore_all_digits ['8'] (by decide) (by decide)
    have h4 : digitsVal ['8'] = 8 := by
      norm_num [digitsVal, List.foldl]
      rw [show ('8'.toNat - 48 : ℕ) = 8 by decide]
      norm_num
    rw [h1]
    simp only [parseFloatModel, h2]
    rw [if_neg (by decide), if_neg (by decide), h3, h4]
  have h := parseScore_total_behavior.2.2.1 ("8/10") 8 (by decide) hpf
  norm_num at h
  exact h

/-- C10: whenever a face with landmarks is detected after the remote
classifier responds, the `analyzeFaceFeatures` call inside
`captureSnapshot` overwrites all four published scores: the resulting
symmetry, texture, oiliness and beard density do not depend on the remote
notes or on the prior Analysis State, so the remote-derived symmetry and
texture never reach the UI update in that branch. -/
theorem analyze_overwrites_remote_scores (s s' : AState) (g g' : GResp)
    (f : Face) (fs fs' : List Face) (lm : Landmarks)
    (hlm : landmarksOf f = some lm) (rng : Rng) :
    ((captureSnapshot s (Except.ok g) (Except.ok (f :: fs)) rng).1).symmetry
      = ((captureSnapshot s' (Except.ok g') (Except.ok (f :: fs')) rng).1).symmetry ∧
    ((captureSnapshot s (Except.ok g) (Except.ok (f :: fs)) rng).1).texture
      = ((captureSnapshot s' (Except.ok g') (Except.ok (f :: fs')) rng).1).texture ∧
    ((captureSnapshot s (Except.ok g) (Except.ok (f :: fs)) rng).1).oiliness
      = ((captureSnapshot s' (Except.ok g') (Except.ok (f :: fs')) rng).1).oiliness ∧
    ((captureSnapshot s (Except.ok g) (Except.ok (f :: fs)) rng).1).beardDensity
      = ((captureSnapshot s' (Except.ok g') (Except.ok (f :: fs')) rng).1).beardDensity := by
  simp only [captureSnapshot, analyzeFaceFeaturesJS, hlm]
  exact ⟨trivial, trivial, trivial, trivial⟩

/-- C10 witness: two passes over the same detected face with differing
prior states and differing remote notes publish identical scores. -/
theorem analyze_overwrites_remote_scores_witness :
    ((captureSnapshot sC10a (Except.ok gC10a) (Except.ok [faceC10]) rngC10).1).symmetry
      = ((captureSnapshot sC10b (Except.ok gC10b) (Except.ok [faceC10]) rngC10).1).symmetry ∧
    ((captureSnapshot sC10a (Except.ok gC10a) (Except.ok [faceC10]) rngC10).1).texture
      = ((captureSnapshot sC10b (Except.ok gC10b) (Except.ok [faceC10]) rngC10).1).texture ∧
    ((captureSnapshot sC10a (Except.ok gC10a) (Except.ok [faceC10]) rngC10).1).oiliness
      = ((captureSnapshot sC10b (Except.ok gC10b) (Except.ok [faceC10]) rngC10).1).oiliness ∧
    ((captureSnapshot sC10a (Except.ok gC10a) (Except.ok [faceC10]) rngC10).1).beardDensity
      = ((captureSnapshot sC10b (Except.ok gC10b) (Except.ok [faceC10]) rngC10).1).beardDensity :=
  analyze_overwrites_remote_scores sC10a sC10b gC10a gC10b faceC10 [] [] lmC10 rfl rngC10

/-- C8: the `POST /api/analisar-rosto` handler returns 400 with an error
payload when no image file is attached; 500 with an error payload when the
model call throws, when no JSON block can be extracted from the model's
reply, or when parsing the extracted block throws; and otherwise 200 with
the JSON object extracted from the reply. -/
theorem analisar_rosto_status_behavior {α : Type} (file : Option (List ℕ))
    (reply : Except Unit String) (parse : String → Option α) :
    (file = none →
      analisarRosto file reply parse
        = (400, Except.error ("Nenhuma imagem enviada."))) ∧
    (∀ b, file = some b → reply = Except.error () →
      analisarRosto file reply parse = (500, Except.error serverErrMsg)) ∧
    (∀ b t, file = some b → reply = Except.ok t → extractJsonBlock t = none →
      analisarRosto file reply parse = (500, Except.error serverErrMsg)) ∧
    (∀ b t j, file = some b → reply = Except.ok t → extractJsonBlock t = some j →
      parse j = none →
      analisarRosto file reply parse = (500, Except.error serverErrMsg)) ∧
    (∀ b t j d, file = some b → reply = Except.ok t → extractJsonBlock t = some j →
      parse j = some d →
      analisarRosto file reply parse = (200, Except.ok d)) := by
  refine ⟨?_, ?_, ?_, ?_, ?_⟩
  · rintro rfl
    rfl
  · rintro b rfl rfl
    rfl
  · rintro b t rfl rfl h
    simp [analisarRosto, h]
  · rintro b t j rfl rfl h1 h2
    simp [analisarRosto, h1, h2]
  · rintro b t j d rfl rfl h1 h2
    simp [analisarRosto, h1, h2]

/-- C8 witness: a concrete request with a file and a reply containing a
JSON block is answered 200 with the extracted, parsed object. -/
theorem analisar_rosto_status_behavior_witness :
    analisarRosto (some [0]) (Except.ok ("ok \x7b1\x7d fim")) parseW
      = (200, Except.ok 7) :=
  (analisar_rosto_status_behavior (some [0]) (Except.ok ("ok \x7b1\x7d fim"))
      parseW).2.2.2.2
    [0] ("ok \x7b1\x7d fim") ("\x7b1\x7d") 7 rfl rfl (by decide) (by decide)

end LosckMachine
